import Mathlib

/-!
Shallow embedding of `provision/config.py` (two-step application
configuration for a cloud-node provisioning tool), together with proofs
of the specification's claims about it.

Modelling conventions:
* POSIX path-string helpers (`os.path.isabs`, `os.path.join`,
  `os.path.basename`, `os.path.dirname`) are embedded as pure `String`
  functions following CPython's `posixpath` implementation.
* Python dicts are embedded as association lists with insert-or-replace
  assignment (`dict_set`) and first-match lookup (`dict_get`).
* Module-level globals (`CODEPATH`, `PATH`, `PUBKEYS`, `BUNDLEMAP`,
  `sys.path`) become explicit parameters / explicit state threading.
* The filesystem and Python's dynamic import machinery become an
  environment (`Env`) of oracle functions; a dynamically imported
  module's `init` hook becomes an arbitrary state transformer that may
  raise (`Except`).
* `logger.warn` / `logger.debug` calls have no effect on the values the
  claims are about and are not modelled.
-/

namespace Provision

/-! ### POSIX path primitives (`os.path`) -/

/-- `s.startswith(pre)` on strings, computed on the character lists (the
standard-library `String.startsWith` does not reduce definitionally). -/
def str_startsWith (s pre : String) : Bool := pre.data.isPrefixOf s.data

/-- `s.endswith(post)` on strings, computed on the character lists. -/
def str_endsWith (s post : String) : Bool := post.data.isSuffixOf s.data

/-- `os.path.isabs(p)` on POSIX: `p` starts with a slash. -/
def isabs (p : String) : Bool := str_startsWith p "/"

/-- `os.path.join(a, b)` on POSIX for two components: if `b` is absolute
it wins; otherwise append, inserting a separator unless `a` is empty or
already ends with one.  CPython folds further components with the same
step, so a three-argument join is `join2 (join2 a b) c`. -/
def join2 (a b : String) : String :=
  if str_startsWith b "/" then b
  else if a = "" ∨ str_endsWith a "/" then a ++ b
  else a ++ "/" ++ b

/-- `os.path.basename(p)` on POSIX: everything after the last slash
(`p[p.rfind('/')+1:]`). -/
def basename (p : String) : String :=
  ⟨(p.data.reverse.takeWhile (fun c => c ≠ '/')).reverse⟩

/-- `os.path.dirname(p)` on POSIX: everything up to and including the
last slash, with trailing slashes stripped unless the result is all
slashes. -/
def dirname (p : String) : String :=
  let head := (p.data.reverse.dropWhile (fun c => c ≠ '/')).reverse
  if head ≠ [] ∧ head.any (fun c => c ≠ '/') then
    ⟨(head.reverse.dropWhile (fun c => c = '/')).reverse⟩
  else ⟨head⟩

/-! ### Python dicts as association lists -/

/-- Python dict assignment `m[k] = v`: replace the value of an existing
key in place, otherwise append the new binding. -/
def dict_set {α : Type} (m : List (String × α)) (k : String) (v : α) :
    List (String × α) :=
  match m with
  | [] => [(k, v)]
  | (k1, v1) :: rest =>
    if k1 = k then (k, v) :: rest else (k1, v1) :: dict_set rest k v

/-- Python dict lookup `m.get(k)` / `k in m`: first (unique) matching
key. -/
def dict_get {α : Type} (m : List (String × α)) (k : String) : Option α :=
  match m with
  | [] => none
  | (k1, v1) :: rest => if k1 = k then some v1 else dict_get rest k

/-- Python `dict(pairs)`: fold the pairs through dict assignment, so a
repeated key keeps its position and its last value. -/
def dict_of {α : Type} (pairs : List (String × α)) : List (String × α) :=
  pairs.foldl (fun m kv => dict_set m kv.1 kv.2) []

/-! ### Module constants of `provision.config` -/

def SCRIPTSDIR : String := "scripts"

def FILESDIR : String := "files"

def PUBKEYSDIR : String := "pubkeys"

def DEFAULT_TARGETDIR : String := "/root/deploy"

/-! ### Bundles and the bundle registry -/

/-- A target-path → source-path mapping. -/
abbrev Dict := List (String × String)

/-- `Bundle`: mappings from file and script paths on the target node to
their local source paths.  The fields are `Option Dict` because a Python
attribute could in principle hold `None`; the constructor's
`scriptmap or {}` / `filemap or {}` guards are embedded in
`Bundle.init`. -/
structure Bundle where
  scriptmap : Option Dict
  filemap : Option Dict
deriving DecidableEq

/-- Python truthiness fallback `x or d` for an optional dict: `None` and
the empty dict are falsy. -/
def truthy_or (x : Option Dict) (d : Dict) : Dict :=
  match x with
  | none => d
  | some m => if m.isEmpty then d else m

/-- `Bundle.__init__(self, scriptmap=None, filemap=None)`:
`self.scriptmap = scriptmap or {}` and `self.filemap = filemap or {}`. -/
def Bundle.init (scriptmap filemap : Option Dict) : Bundle :=
  { scriptmap := some (truthy_or scriptmap [])
    filemap := some (truthy_or filemap []) }

/-- The global `BUNDLEMAP` dict, bundle name → `Bundle`. -/
abbrev Registry := List (String × Bundle)

/-- `new_bundle(name, scriptmap, filemap=None)`: create a bundle and add
it to `BUNDLEMAP` (`BUNDLEMAP[name] = Bundle(scriptmap, filemap)`).  The
`if name in BUNDLEMAP: logger.warn(...)` branch only logs and is not
modelled. -/
def new_bundle (name : String) (scriptmap : Option Dict)
    (filemap : Option Dict) (BUNDLEMAP : Registry) : Registry :=
  dict_set BUNDLEMAP name (Bundle.init scriptmap filemap)

/-- `makemap(filenames, sourcedir, targetdir=None)`: map
`join(targetdir, f)` to `join(sourcedir, f)` for each filename, with
`targetdir` defaulting to `DEFAULT_TARGETDIR` when `None`. -/
def makemap (filenames : List String) (sourcedir : String)
    (targetdir : Option String) : Dict :=
  let td := match targetdir with
    | none => DEFAULT_TARGETDIR
    | some t => t
  dict_of (filenames.map (fun f => (join2 td f, join2 sourcedir f)))

/-- `add_bundle(name, scripts=[], files=[], scriptsdir=SCRIPTSDIR,
filesdir=FILESDIR)`: builds `scriptmap = makemap(scripts, join(PATH,
scriptsdir))` and `filemap = dict(zip(files, [join(PATH, filesdir,
basename(f)) for f in files]))`, then calls `new_bundle`.  The global
`PATH` is an explicit first parameter. -/
def add_bundle (PATH : String) (name : String) (scripts : List String)
    (files : List String) (scriptsdir : String) (filesdir : String)
    (BUNDLEMAP : Registry) : Registry :=
  let scriptmap := makemap scripts (join2 PATH scriptsdir) none
  let filemap :=
    dict_of (files.map (fun f => (f, join2 (join2 PATH filesdir) (basename f))))
  new_bundle name (some scriptmap) (some filemap) BUNDLEMAP

/-! ### DictObj -/

/-- The error raised by a failed Python dict lookup. -/
inductive LookupErr where
  | KeyError (key : String)
deriving DecidableEq

/-- `DictObj.__getattr__(self, key)`: `return self.__dict__['d'][key]` —
the mapped value, or a `KeyError` when the key is absent. -/
def dictobj_getattr {α : Type} (d : List (String × α)) (key : String) :
    Except LookupErr α :=
  match dict_get d key with
  | some v => Except.ok v
  | none => Except.error (LookupErr.KeyError key)

/-- `DictObj.__setattr__(self, key, value)`:
`self.__dict__['d'][key] = value`.  The overwrite warning
(`if self.__dict__['d'].get(key): logger.warn(...)`) only logs and is
not modelled. -/
def dictobj_setattr {α : Type} (d : List (String × α)) (key : String)
    (value : α) : List (String × α) :=
  dict_set d key value

/-! ### Global configuration state, the filesystem/import environment -/

/-- The mutable module-level state of `provision.config` that the
configuration phase touches: the `PUBKEYS` accumulator, the `BUNDLEMAP`
registry, and the current base path `PATH` (initially `None`). -/
structure ConfigState where
  PUBKEYS : List String
  BUNDLEMAP : Registry
  PATH : Option String
deriving DecidableEq

/-- A dynamically imported Python module, as far as `init_module` can
observe it: whether `hasattr(mod, 'init')`, and the `init` hook itself,
embedded as an arbitrary transformer of the global state that may raise
(the hook receives `DictObj(globals())` and can mutate anything). -/
structure PyModule where
  hasInit : Bool
  init : ConfigState → Except String ConfigState

/-- The outcome of `__import__(name)`: a module, an `ImportError`, or
some other exception (carried as a message string). -/
inductive ImportOutcome where
  | ok (m : PyModule)
  | importError
  | raises (e : String)

/-- The ambient environment: the module-location constant `CODEPATH`
and oracles for `os.path.exists`, `os.listdir`, `open(...).read()` and
`__import__` (keyed by the module name it is given). -/
structure Env where
  CODEPATH : String
  path_exists : String → Bool
  listdir : String → List String
  read_file : String → String
  dunder_import : String → ImportOutcome

/-! ### Path normalization, pubkey loading, dynamic import, configure -/

/-- `normalize_path(path)`: if `path` is not absolute, assume it is
relative to `CODEPATH` (passed explicitly here since it is a module
global). -/
def normalize_path (CODEPATH : String) (path : String) : String :=
  if isabs path then path else join2 CODEPATH path

/-- `load_pubkeys(loadpath, pubkeys)`: append the contents of every file
in `loadpath` (in directory-listing order) onto the pubkeys list. -/
def load_pubkeys (env : Env) (loadpath : String) (pubkeys : List String) :
    List String :=
  pubkeys ++ (env.listdir loadpath).map
    (fun filename => env.read_file (join2 loadpath filename))

/-- `import_by_path(path)`: append `os.path.dirname(path)` to
`sys.path`, attempt `__import__(os.path.basename(path))`, catch only
`ImportError` (logging a warning and returning `None`), and in the
`finally` block `del sys.path[-1]`.  Returns the updated `sys.path`
paired with the result: `ok (some m)` on success, `ok none` after a
caught `ImportError`, `error e` when some other exception propagates. -/
def import_by_path (dunder_import : String → ImportOutcome)
    (sysPath : List String) (path : String) :
    List String × Except String (Option PyModule) :=
  let sp := sysPath ++ [dirname path]
  match dunder_import (basename path) with
  | ImportOutcome.ok m => (sp.dropLast, Except.ok (some m))
  | ImportOutcome.importError => (sp.dropLast, Except.ok none)
  | ImportOutcome.raises e => (sp.dropLast, Except.error e)

/-- `init_module(path)`: import the module at `path`; if a module came
back and it has an `init` attribute, set the global `PATH` to `path` and
call `mod.init(DictObj(globals()))`.  Exceptions from the import or from
the hook propagate. -/
def init_module (env : Env) (sysPath : List String) (st : ConfigState)
    (path : String) : List String × Except String ConfigState :=
  match import_by_path env.dunder_import sysPath path with
  | (sp, Except.error e) => (sp, Except.error e)
  | (sp, Except.ok none) => (sp, Except.ok st)
  | (sp, Except.ok (some m)) =>
    if m.hasInit then
      match m.init { st with PATH := some path } with
      | Except.error e => (sp, Except.error e)
      | Except.ok st2 => (sp, Except.ok st2)
    else (sp, Except.ok st)

/-- The pubkey-collecting half of `configure`'s loop body:
`pubkeys_path = os.path.join(path, PUBKEYSDIR)`, and if it exists,
`load_pubkeys(pubkeys_path, PUBKEYS)`. -/
def pubkeys_step (env : Env) (st : ConfigState) (path : String) :
    ConfigState :=
  let pubkeys_path := join2 path PUBKEYSDIR
  if env.path_exists pubkeys_path then
    { st with PUBKEYS := load_pubkeys env pubkeys_path st.PUBKEYS }
  else st

/-- The `for path in [normalize_path(p) for p in paths]:` loop body of
`configure`, over the already-normalized paths: load pubkeys when the
`pubkeys` subdirectory exists, then `init_module(path)`. -/
def configure_go (env : Env) (sysPath : List String) (st : ConfigState) :
    List String → List String × Except String ConfigState
  | [] => (sysPath, Except.ok st)
  | path :: rest =>
    match init_module env sysPath (pubkeys_step env st path) path with
    | (sp, Except.error e) => (sp, Except.error e)
    | (sp, Except.ok st2) => configure_go env sp st2 rest

/-- `configure(paths)`: `if not paths: return`, else iterate the loop
body over `[normalize_path(p) for p in paths]`. -/
def configure (env : Env) (sysPath : List String) (st : ConfigState)
    (paths : List String) : List String × Except String ConfigState :=
  if paths.isEmpty then (sysPath, Except.ok st)
  else configure_go env sysPath st (paths.map (normalize_path env.CODEPATH))

/-- `configure_cwd(paths)`:
`configure([os.path.join(cwd, p) for p in paths if not os.path.isabs(p)])`
— the comprehension's `if` clause filters the list, so only non-absolute
paths reach `configure`. -/
def configure_cwd (env : Env) (cwd : String) (sysPath : List String)
    (st : ConfigState) (paths : List String) :
    List String × Except String ConfigState :=
  configure env sysPath st
    ((paths.filter (fun p => !(isabs p))).map (fun p => join2 cwd p))

/-! ### Concrete test fixtures used by closed theorems and witnesses -/

/-- An environment in which every directory has a `pubkeys` subdirectory
holding one key file, and every import raises `ImportError`. -/
def env0 : Env :=
  { CODEPATH := "/code"
    path_exists := fun _ => true
    listdir := fun _ => ["a.pub"]
    read_file := fun _ => "PUBKEY-A"
    dunder_import := fun _ => ImportOutcome.importError }

/-- An environment with no pubkey directories in which every import
raises `ImportError`. -/
def envIE : Env :=
  { CODEPATH := "/code"
    path_exists := fun _ => false
    listdir := fun _ => []
    read_file := fun _ => ""
    dunder_import := fun _ => ImportOutcome.importError }

/-- An environment with no pubkey directories in which every import
raises a non-`ImportError` exception. -/
def envRA : Env :=
  { CODEPATH := "/code"
    path_exists := fun _ => false
    listdir := fun _ => []
    read_file := fun _ => ""
    dunder_import := fun _ => ImportOutcome.raises "boom" }

/-- A module whose `init` hook always raises. -/
def okmod : PyModule :=
  { hasInit := true
    init := fun _ => Except.error "init-boom" }

/-- An environment with no pubkey directories in which every import
succeeds with `okmod`. -/
def envOK : Env :=
  { CODEPATH := "/code"
    path_exists := fun _ => false
    listdir := fun _ => []
    read_file := fun _ => ""
    dunder_import := fun _ => ImportOutcome.ok okmod }

/-- The initial configuration state: no pubkeys, no bundles, `PATH` is
`None`. -/
def st0 : ConfigState := { PUBKEYS := [], BUNDLEMAP := [], PATH := none }

/-! ### Helper lemmas -/

/-- `del l[-1]` right after `l.append(x)` restores the original list. -/
theorem dropLast_append_single {α : Type} (l : List α) (x : α) :
    (l ++ [x]).dropLast = l := by
  simp

/-- A dict lookup right after an assignment to the same key yields the
assigned value. -/
theorem dict_get_dict_set_self {α : Type} (m : List (String × α))
    (k : String) (v : α) : dict_get (dict_set m k v) k = some v := by
  induction m with
  | nil => simp [dict_set, dict_get]
  | cons hd tl ih =>
    obtain ⟨k1, v1⟩ := hd
    by_cases h : k1 = k
    · simp [dict_set, dict_get, h]
    · simp [dict_set, dict_get, h, ih]

/-- Every binding present after a dict assignment was either already
present or is the assigned one. -/
theorem mem_dict_set {α : Type} (m : List (String × α)) (k : String)
    (v : α) (p : String × α) (hp : p ∈ dict_set m k v) :
    p ∈ m ∨ p = (k, v) := by
  induction m with
  | nil => simpa [dict_set] using hp
  | cons hd tl ih =>
    obtain ⟨k1, v1⟩ := hd
    by_cases h : k1 = k
    · simp only [dict_set, h, if_true] at hp
      rcases List.mem_cons.mp hp with heq | hmem
      · exact Or.inr heq
      · exact Or.inl (List.mem_cons_of_mem _ hmem)
    · simp only [dict_set, h, if_false] at hp
      rcases List.mem_cons.mp hp with heq | hmem
      · exact Or.inl (heq ▸ List.mem_cons_self _ _)
      · rcases ih hmem with hmem1 | heq1
        · exact Or.inl (List.mem_cons_of_mem _ hmem1)
        · exact Or.inr heq1

/-- Folding `new_bundle` requests over a registry whose bundles all have
`some` maps preserves that invariant. -/
theorem fold_new_bundle_inv
    (ops : List (String × Option Dict × Option Dict)) (reg : Registry)
    (hreg : ∀ p ∈ reg, p.2.scriptmap ≠ none ∧ p.2.filemap ≠ none) :
    ∀ p ∈ ops.foldl (fun r op => new_bundle op.1 op.2.1 op.2.2 r) reg,
      p.2.scriptmap ≠ none ∧ p.2.filemap ≠ none := by
  induction ops generalizing reg with
  | nil => simpa using hreg
  | cons op rest ih =>
    intro p hp
    simp only [List.foldl_cons] at hp
    refine ih _ ?_ p hp
    intro q hq
    rcases mem_dict_set _ _ _ _ hq with hmem | heq
    · exact hreg q hmem
    · rw [heq]
      exact ⟨by simp [Bundle.init], by simp [Bundle.init]⟩

/-! ### Claim theorems -/

/-- C1: counter-evidence.  `configure_cwd` does NOT process every path:
its list comprehension filters out already-absolute paths, so for the
input `['/srv/conf']` it calls `configure([])` and the absolute path is
never processed — while `configure(['/srv/conf'])` itself would have
loaded that directory's pubkey.  The first conjunct shows the call is a
complete no-op; the second shows `configure` on the same path is not. -/
theorem configure_cwd_drops_absolute_paths :
    configure_cwd env0 "/work" [] st0 ["/srv/conf"] = ([], Except.ok st0) ∧
    configure env0 [] st0 ["/srv/conf"] =
      ([], Except.ok { st0 with PUBKEYS := ["PUBKEY-A"] }) :=
  ⟨rfl, rfl⟩

/-- C2: counter-evidence.  `normalize_path` performs no home-directory
expansion: on the path `'~'` it returns `os.path.join(CODEPATH, '~')`
for every value of `CODEPATH` (concretely `'/site/provision/~'` for
`CODEPATH = '/site/provision'`), not the expanded user home directory
that the repository's own test asserts. -/
theorem normalize_path_tilde_not_expanded :
    (∀ CODEPATH : String, normalize_path CODEPATH "~" = join2 CODEPATH "~") ∧
    normalize_path "/site/provision" "~" = "/site/provision/~" :=
  ⟨fun _ => rfl, rfl⟩

/-- C3: with the global `PATH` set to `'/srv/bundles'`,
`add_bundle('web', scripts=['setup.sh'], files=['/etc/app.conf'],
scriptsdir='scripts', filesdir='files')` stores a Bundle named `'web'`
whose scriptmap is `{'/root/deploy/setup.sh':
'/srv/bundles/scripts/setup.sh'}` (the target directory being the
module default `DEFAULT_TARGETDIR = '/root/deploy'`) and whose filemap
is `{'/etc/app.conf': '/srv/bundles/files/app.conf'}`. -/
theorem add_bundle_web_scenario :
    dict_get
        (add_bundle "/srv/bundles" "web" ["setup.sh"] ["/etc/app.conf"]
          "scripts" "files" []) "web" =
      some
        { scriptmap :=
            some [("/root/deploy/setup.sh", "/srv/bundles/scripts/setup.sh")]
          filemap := some [("/etc/app.conf", "/srv/bundles/files/app.conf")] } :=
  rfl

/-- C4: `import_by_path` restores `sys.path` to its prior value on every
exit path — successful import, caught `ImportError`, and a propagating
exception alike — so the appended entry never survives the call. -/
theorem import_by_path_restores_sys_path
    (dunder_import : String → ImportOutcome) (sysPath : List String)
    (path : String) :
    (import_by_path dunder_import sysPath path).1 = sysPath := by
  unfold import_by_path
  cases dunder_import (basename path) <;>
    simp [dropLast_append_single]

/-- C5: registering a bundle under a name that already exists in the
registry never fails (`new_bundle` is total) and replaces the stored
bundle entirely: a subsequent lookup yields the newly constructed
Bundle. -/
theorem new_bundle_overwrites_existing (name : String)
    (scriptmap filemap : Option Dict) (reg : Registry)
    (h : (dict_get reg name).isSome = true) :
    dict_get (new_bundle name scriptmap filemap reg) name =
      some (Bundle.init scriptmap filemap) :=
  dict_get_dict_set_self reg name (Bundle.init scriptmap filemap)

/-- C5 witness: overwriting the existing bundle `'web'`. -/
theorem new_bundle_overwrites_existing_witness :
    (dict_get [("web", Bundle.init none none)] "web").isSome = true ∧
    dict_get
        (new_bundle "web" (some [("/root/deploy/t.sh", "/srv/s/t.sh")]) none
          [("web", Bundle.init none none)]) "web" =
      some (Bundle.init (some [("/root/deploy/t.sh", "/srv/s/t.sh")]) none) :=
  ⟨rfl, new_bundle_overwrites_existing "web" _ _ _ rfl⟩

/-- C6: `configure([])` is a no-op: the configuration state (pubkey
accumulator, bundle registry and current base path) and `sys.path` are
returned unchanged, with no error. -/
theorem configure_empty_noop (env : Env) (sysPath : List String)
    (st : ConfigState) :
    configure env sysPath st [] = (sysPath, Except.ok st) :=
  rfl

/-- C7: `normalize_path` returns an absolute path unchanged and joins a
non-absolute path onto the base directory (`CODEPATH`); it is a total
pure string computation with no error cases. -/
theorem normalize_path_spec (CODEPATH path : String) :
    (isabs path = true → normalize_path CODEPATH path = path) ∧
    (isabs path = false →
      normalize_path CODEPATH path = join2 CODEPATH path) := by
  constructor <;> intro h <;> simp [normalize_path, h]

/-- C7 witness: the absolute path `'/foo/bar'` is unchanged and the
relative path `'foo/bar'` is joined onto the base `'/baz'`. -/
theorem normalize_path_spec_witness :
    (isabs "/foo/bar" = true ∧
      normalize_path "/baz" "/foo/bar" = "/foo/bar") ∧
    (isabs "foo/bar" = false ∧
      normalize_path "/baz" "foo/bar" = "/baz/foo/bar") :=
  ⟨⟨rfl, (normalize_path_spec "/baz" "/foo/bar").1 rfl⟩,
   ⟨rfl, (normalize_path_spec "/baz" "foo/bar").2 rfl⟩⟩

/-- C8: a `DictObj` attribute read returns the value mapped to the key
when present and fails with a `KeyError` lookup error when absent; an
attribute write inserts or overwrites the key, so a read after a write
returns the written value. -/
theorem dictobj_attr_access {α : Type} (d : List (String × α))
    (key : String) :
    (∀ v, dict_get d key = some v →
      dictobj_getattr d key = Except.ok v) ∧
    (dict_get d key = none →
      dictobj_getattr d key = Except.error (LookupErr.KeyError key)) ∧
    (∀ value,
      dictobj_getattr (dictobj_setattr d key value) key =
        Except.ok value) := by
  refine ⟨?_, ?_, ?_⟩
  · intro v h
    simp [dictobj_getattr, h]
  · intro h
    simp [dictobj_getattr, h]
  · intro value
    simp [dictobj_getattr, dictobj_setattr, dict_get_dict_set_self]

/-- C8 witness: reading a present key, reading an absent key, and
reading back a freshly written key, on a concrete configuration dict. -/
theorem dictobj_attr_access_witness :
    (dict_get [("DEFAULT_PROVIDER", "rackspace")] "DEFAULT_PROVIDER" =
        some "rackspace" ∧
      dictobj_getattr [("DEFAULT_PROVIDER", "rackspace")]
          "DEFAULT_PROVIDER" = Except.ok "rackspace") ∧
    (dict_get ([("DEFAULT_PROVIDER", "rackspace")] : List (String × String))
        "DEFAULT_USERID" = none ∧
      dictobj_getattr ([("DEFAULT_PROVIDER", "rackspace")] :
          List (String × String)) "DEFAULT_USERID" =
        Except.error (LookupErr.KeyError "DEFAULT_USERID")) ∧
    dictobj_getattr
        (dictobj_setattr [("DEFAULT_PROVIDER", "rackspace")]
          "DEFAULT_USERID" "u1") "DEFAULT_USERID" = Except.ok "u1" :=
  ⟨⟨rfl, (dictobj_attr_access _ _).1 "rackspace" rfl⟩,
   ⟨rfl, (dictobj_attr_access _ _).2.1 rfl⟩,
   (dictobj_attr_access _ _).2.2 "u1"⟩

/-- C9: every bundle ever stored in a registry built by `new_bundle`
calls has `some` dictionary (never `None`) in both its scriptmap and
filemap fields, whatever optional arguments the calls received. -/
theorem bundles_never_none
    (ops : List (String × Option Dict × Option Dict)) (name : String)
    (b : Bundle)
    (h : (name, b) ∈
      ops.foldl (fun reg op => new_bundle op.1 op.2.1 op.2.2 reg) []) :
    b.scriptmap ≠ none ∧ b.filemap ≠ none :=
  fold_new_bundle_inv ops [] (by simp) (name, b) h

/-- C9 witness: the bundle registered by `new_bundle('web', None, None)`
has `some` (empty) maps, not `None` fields. -/
theorem bundles_never_none_witness :
    ("web", Bundle.init none none) ∈
      ([("web", (none : Option Dict), (none : Option Dict))]).foldl
        (fun reg op => new_bundle op.1 op.2.1 op.2.2 reg) [] ∧
    ((Bundle.init none none).scriptmap ≠ none ∧
      (Bundle.init none none).filemap ≠ none) :=
  ⟨by simp [new_bundle, dict_set, Bundle.init, truthy_or],
   bundles_never_none [("web", none, none)] "web" (Bundle.init none none)
     (by simp [new_bundle, dict_set, Bundle.init, truthy_or])⟩

/-- C10: only `ImportError` is caught while loading a configuration
module: (a) an `ImportError` is non-fatal — `configure` simply carries
on with the remaining paths after the pubkey step; (b) any other
exception raised during the import propagates out of `configure`
immediately, leaving the remaining paths unprocessed (and `sys.path`
restored); (c) likewise an exception raised by the module's `init` hook
propagates out of `configure`. -/
theorem configure_import_error_handling (env : Env)
    (sysPath : List String) (st : ConfigState) (p : String)
    (rest : List String) :
    (env.dunder_import (basename (normalize_path env.CODEPATH p)) =
        ImportOutcome.importError →
      configure env sysPath st (p :: rest) =
        configure_go env sysPath
          (pubkeys_step env st (normalize_path env.CODEPATH p))
          (rest.map (normalize_path env.CODEPATH))) ∧
    (∀ e, env.dunder_import (basename (normalize_path env.CODEPATH p)) =
        ImportOutcome.raises e →
      configure env sysPath st (p :: rest) = (sysPath, Except.error e)) ∧
    (∀ m e, env.dunder_import (basename (normalize_path env.CODEPATH p)) =
        ImportOutcome.ok m →
      m.hasInit = true →
      m.init { pubkeys_step env st (normalize_path env.CODEPATH p) with
                 PATH := some (normalize_path env.CODEPATH p) } =
        Except.error e →
      configure env sysPath st (p :: rest) = (sysPath, Except.error e)) := by
  refine ⟨?_, ?_, ?_⟩
  · intro h
    simp [configure, configure_go, init_module, import_by_path, h,
      dropLast_append_single]
  · intro e h
    simp [configure, configure_go, init_module, import_by_path, h,
      dropLast_append_single]
  · intro m e h hInit hinit
    simp [configure, configure_go, init_module, import_by_path, h, hInit,
      hinit, dropLast_append_single]

/-- C10 witness: a caught `ImportError` (continue), a propagating import
exception (abort), and a propagating `init`-hook exception (abort), each
on a concrete environment. -/
theorem configure_import_error_handling_witness :
    (envIE.dunder_import (basename (normalize_path envIE.CODEPATH "site1")) =
        ImportOutcome.importError ∧
      configure envIE [] st0 ["site1"] =
        configure_go envIE []
          (pubkeys_step envIE st0 (normalize_path envIE.CODEPATH "site1"))
          []) ∧
    (envRA.dunder_import (basename (normalize_path envRA.CODEPATH "site1")) =
        ImportOutcome.raises "boom" ∧
      configure envRA [] st0 ["site1", "site2"] =
        ([], Except.error "boom")) ∧
    (envOK.dunder_import (basename (normalize_path envOK.CODEPATH "site1")) =
        ImportOutcome.ok okmod ∧
      okmod.hasInit = true ∧
      okmod.init { pubkeys_step envOK st0 (normalize_path envOK.CODEPATH "site1") with
                     PATH := some (normalize_path envOK.CODEPATH "site1") } =
        Except.error "init-boom" ∧
      configure envOK [] st0 ["site1", "site2"] =
        ([], Except.error "init-boom")) :=
  ⟨⟨rfl, (configure_import_error_handling envIE [] st0 "site1" []).1 rfl⟩,
   ⟨rfl,
    (configure_import_error_handling envRA [] st0 "site1" ["site2"]).2.1
      "boom" rfl⟩,
   ⟨rfl, rfl, rfl,
    (configure_import_error_handling envOK [] st0 "site1" ["site2"]).2.2
      okmod "init-boom" rfl rfl rfl⟩⟩

end Provision
